import Mathlib

/-!
Verification of the caringcaribou CAN toolkit against its specification.

The definitions below are a shallow embedding of the Python source:
* `src/caringcaribou/utils/iso15765_2.py` (class `IsoTp`),
* `src/caringcaribou/utils/can_actions.py` (class `CanActions`),
* `src/tool/modules/xcp.py` (XCP error table and memory dump helpers).

Python byte lists become `List Nat`; Python `None` results become `Option`;
raised exceptions become `Except` errors or dedicated result constructors.
Machine integers do not overflow in the modelled code paths (all values are
bytes or 12-bit lengths), so `Nat`/`Int` are used directly, with the masks
(`&&& 0xFF`, `&&& 0xF`, ...) written exactly where the source writes them.
-/

namespace CaringCaribou

/-- Modelled from the spec: `caringcaribou/utils/constants.py` is not part of
the provided sources; the spec fixes the standard-format limit at 0x7FF
("Extended format is required when the value exceeds 0x7FF"). -/
def ARBITRATION_ID_MAX : Nat := 0x7FF

/-- Modelled from the spec: maximum 29-bit extended arbitration ID
(`set_filter_single_arbitration_id` installs the mask 0x1FFFFFFF). -/
def ARBITRATION_ID_MAX_EXTENDED : Nat := 0x1FFFFFFF

/-- Modelled from the spec: minimum arbitration ID (0). -/
def ARBITRATION_ID_MIN : Nat := 0

namespace IsoTp

-- Constants of class IsoTp (iso15765_2.py, lines 14-35).
def MAX_SF_LENGTH : Nat := 7
def MAX_FF_LENGTH : Nat := 6
def MAX_CF_LENGTH : Nat := 7

def SF_PCI_LENGTH : Nat := 1
def CF_PCI_LENGTH : Nat := 1
def FF_PCI_LENGTH : Nat := 2
def FC_PCI_LENGTH : Nat := 3

def FC_FS_CTS : Nat := 0
def FC_FS_WAIT : Nat := 1
def FC_FS_OVFLW : Nat := 2

def SF_FRAME_ID : Nat := 0
def FF_FRAME_ID : Nat := 1
def CF_FRAME_ID : Nat := 2
def FC_FRAME_ID : Nat := 3

def MAX_FRAME_LENGTH : Nat := 8
def MAX_MESSAGE_LENGTH : Nat := 4095

/-- Python `decode_sf` (lines 105-117): on a frame of at least `SF_PCI_LENGTH` bytes
returns `(frame[0] & 0xF, frame[1:])`, otherwise `(None, None)`. -/
def decode_sf (frame : List Nat) : Option (Nat × List Nat) :=
  if frame.length ≥ SF_PCI_LENGTH then
    some (frame.headD 0 &&& 0xF, frame.drop 1)
  else
    none

/-- Python `decode_ff` (lines 119-131): on a frame of at least `FF_PCI_LENGTH` bytes
returns `(((frame[0] & 0xF) << 8) | frame[1], frame[2:])`. -/
def decode_ff (frame : List Nat) : Option (Nat × List Nat) :=
  if frame.length ≥ FF_PCI_LENGTH then
    some ((((frame.headD 0 &&& 0xF) <<< 8) ||| (frame.drop 1).headD 0, frame.drop 2))
  else
    none

/-- Python `decode_cf` (lines 133-145): on a frame of at least `CF_PCI_LENGTH` bytes
returns `(frame[0] & 0xF, frame[1:])`. -/
def decode_cf (frame : List Nat) : Option (Nat × List Nat) :=
  if frame.length ≥ CF_PCI_LENGTH then
    some (frame.headD 0 &&& 0xF, frame.drop 1)
  else
    none

/-- Python `decode_fc` (lines 147-161): on a frame of at least `FC_PCI_LENGTH` bytes
returns `(frame[0] & 0xF, frame[1], frame[2])`. -/
def decode_fc (frame : List Nat) : Option (Nat × Nat × Nat) :=
  if frame.length ≥ FC_PCI_LENGTH then
    some (frame.headD 0 &&& 0xF, (frame.drop 1).headD 0, (frame.drop 2).headD 0)
  else
    none

/-- Python `encode_fc` (lines 163-172). -/
def encode_fc (flow_status block_size st_min : Nat) : List Nat :=
  [(FC_FRAME_ID <<< 4) ||| flow_status, block_size, st_min, 0, 0, 0, 0, 0]

/-- The consecutive-frame loop of `get_frames_from_message`
(lines 379-397).  `rest` is the not-yet-copied tail of the message
(`message[bytes_copied:]`), `sn` the current sequence number.  Each pass
increments `sn` modulo 16, builds one CF of 8 bytes (or, when padding is
disabled and fewer than 7 bytes remain, of `bytes_left + 1` bytes) and
copies `min 7 bytes_left` message bytes into it.  The loop runs while
`bytes_left_to_copy > 0` and consumes at least one byte per pass, so
`fuel := rest.length` iterations always suffice (see `build_cfs`). -/
def build_cfs_fuel (fuel : Nat) (rest : List Nat) (sn : Nat)
    (padding_enabled : Bool) (padding_value : Nat) : List (List Nat) :=
  match fuel with
  | 0 => []
  | fuel + 1 =>
    if rest = [] then
      []
    else
      let sn1 := (sn + 1) % 16
      let chunk := rest.take MAX_CF_LENGTH
      let frame :=
        if ¬ padding_enabled ∧ rest.length < 7 then
          ((CF_FRAME_ID <<< 4) ||| sn1) :: chunk
        else
          ((CF_FRAME_ID <<< 4) ||| sn1) ::
            (chunk ++ List.replicate (MAX_CF_LENGTH - chunk.length) padding_value)
      frame :: build_cfs_fuel fuel (rest.drop MAX_CF_LENGTH) sn1
        padding_enabled padding_value

/-- The CF loop with exactly enough fuel for its remaining bytes. -/
def build_cfs (rest : List Nat) (sn : Nat) (padding_enabled : Bool)
    (padding_value : Nat) : List (List Nat) :=
  build_cfs_fuel rest.length rest sn padding_enabled padding_value

/-- Python `get_frames_from_message` (lines 338-398).  `padding_value = none` models
the Python argument `None` (padding disabled); `some v` enables padding with
byte `v`.  A message longer than `MAX_MESSAGE_LENGTH` raises `ValueError`,
modelled as `Except.error`. -/
def get_frames_from_message (message : List Nat) (padding_value : Option Nat) :
    Except String (List (List Nat)) :=
  let padding_enabled := padding_value.isSome
  let pv := padding_value.getD 0x00
  let message_length := message.length
  if message_length > MAX_MESSAGE_LENGTH then
    .error "Message too long for ISO-TP"
  else if message_length ≤ MAX_SF_LENGTH then
    -- Single frame (SF): frame[0] = (SF_FRAME_ID << 4) | L, bytes 1..L the
    -- payload; positions L+1..7 keep the padding value when padding is on.
    .ok [((SF_FRAME_ID <<< 4) ||| message_length) ::
          (message ++
            if padding_enabled then
              List.replicate (MAX_FRAME_LENGTH - (message_length + 1)) pv
            else
              [])]
  else
    -- First frame (FF): 12-bit length over bytes 0-1, first 6 payload bytes.
    .ok ((((FF_FRAME_ID <<< 4) ||| (message_length >>> 8)) ::
           (message_length &&& 0xFF) :: message.take MAX_FF_LENGTH)
          :: build_cfs (message.drop MAX_FF_LENGTH) 0 padding_enabled pv)

/-- Result of one `indication` call (lines 192-269).  The source returns
`list(message)` on success and `None` both on timeout and on the
"Invalid frame type" branch; the constructors record which exit path was
taken.  `pythonError` marks paths where the source would raise an exception
(e.g. appending frame data to a `message` that is `None` after a failed
first-frame decode). -/
inductive RxResult
  | message (m : List Nat)
  | protocolError
  | timeout
  | pythonError
deriving DecidableEq, Repr

/-- The receive loop of `indication` (lines 210-269).  `incoming` is the
ordered sequence of CAN messages delivered by `bus.recv`; exhausting it
models the overall wait-window expiry.  `sn`, `message` and `message_length`
are the loop variables (both of the latter become Python `None` when
`decode_ff` fails, hence the `Option`s).  The flow-control frames the
receiver emits towards the peer are pure side effects on the bus and do not
influence the returned value, so they are not accumulated here. -/
def indication_run (arb_id_request arb_id_response : Nat)
    (incoming : List (Nat × List Nat)) (sn : Nat)
    (message : Option (List Nat)) (message_length : Option Nat)
    (trim_padding first_frame_only : Bool) : RxResult :=
  match incoming with
  | [] => .timeout
  | (aid, frame) :: rest =>
    if aid = arb_id_request ∨ aid = arb_id_response then
      if frame.length > 0 then
        let frame_type := (frame.headD 0 >>> 4) &&& 0xF
        if frame_type = SF_FRAME_ID then
          -- Single frame: break with message = frame payload, trimmed to SF_DL.
          match decode_sf frame with
          | some (dl, data) =>
            .message (if trim_padding then data.take dl else data)
          | none => .pythonError
        else if frame_type = FF_FRAME_ID then
          match decode_ff frame with
          | some (ffdl, data) =>
            if first_frame_only then
              -- Reply with an overflow FC and break with the first 6 bytes.
              .message data
            else
              -- Reply with a CTS FC, reset sn, keep listening.
              indication_run arb_id_request arb_id_response rest 0
                (some data) (some ffdl) trim_padding first_frame_only
          | none =>
            -- decode_ff returned (None, None): message and message_length
            -- both become None.
            if first_frame_only then
              .pythonError        -- `list(None)` would raise
            else
              indication_run arb_id_request arb_id_response rest 0
                none none trim_padding first_frame_only
        else if frame_type = CF_FRAME_ID then
          match decode_cf frame with
          | some (new_sn, data) =>
            if (sn + 1) % 16 = new_sn then
              match message, message_length with
              | some m, some ml =>
                let m2 := m ++ data
                if m2.length ≥ ml then
                  .message (if trim_padding then m2.take ml else m2)
                else
                  indication_run arb_id_request arb_id_response rest new_sn
                    (some m2) (some ml) trim_padding first_frame_only
              | _, _ => .pythonError  -- `None += data` / `len >= None` raises
            else
              -- Sequence number mismatch: frame silently dropped.
              indication_run arb_id_request arb_id_response rest sn
                message message_length trim_padding first_frame_only
          | none => .pythonError
        else
          -- Invalid frame type (covers FC frames and nibbles 4-15): None.
          .protocolError
      else
        indication_run arb_id_request arb_id_response rest sn
          message message_length trim_padding first_frame_only
    else
      -- Unknown arbitration ID: ignore message.
      indication_run arb_id_request arb_id_response rest sn
        message message_length trim_padding first_frame_only

/-- Entry point `indication` with its initial loop state (`sn = 0`, `message = []`,
`message_length = 0`, lines 201-208). -/
def indication (arb_id_request arb_id_response : Nat)
    (incoming : List (Nat × List Nat)) (trim_padding first_frame_only : Bool) :
    RxResult :=
  indication_run arb_id_request arb_id_response incoming 0
    (some []) (some 0) trim_padding first_frame_only

/-- A `can.Message` as constructed by the toolkit. -/
structure CanMessage where
  arbitration_id : Nat
  data : List Nat
  is_extended_id : Bool
  is_error_frame : Bool
  is_remote_frame : Bool
deriving DecidableEq, Repr

/-- Python `IsoTp.send_message` (lines 93-103): the extended-ID flag is set when
forced or when the arbitration ID exceeds `ARBITRATION_ID_MAX`. -/
def send_message (data : List Nat) (arbitration_id : Nat)
    (force_extended : Bool) : CanMessage :=
  { arbitration_id := arbitration_id
    data := data
    is_extended_id := force_extended || decide (arbitration_id > ARBITRATION_ID_MAX)
    is_error_frame := false
    is_remote_frame := false }

/-- Exit paths of `transmit` (lines 271-336).  The source returns `None` on
every path; the constructors record which `return` was taken ( `done` is the
implicit return after the final block). -/
inductive TxOutcome
  | noData
  | done
  | fcTimeout
  | peerOverflow
  | badFlowStatus
deriving DecidableEq, Repr

/-- Result of the inner flow-control wait loop of `transmit`
(lines 296-328). -/
inductive FcWaitResult
  | timeout
  | overflow
  | badFlowStatus
  | cts (block_size st_min : Nat) (rest : List (Option (Nat × List Nat)))
deriving DecidableEq, Repr

/-- The `while not receiver_is_ready` loop (lines 296-328).  `incoming`
models successive `bus.recv` results, `none` being a receive timeout (the
source then returns `None`).  Frames with the wrong arbitration ID and FC
frames with flow status WAIT are skipped.  The STmin normalization of
lines 319-322 is applied inside the CTS branch; the block-size adjustment of
line 317 needs the remaining frame count and lives in `transmit_blocks`. -/
def wait_for_fc (incoming : List (Option (Nat × List Nat)))
    (arbitration_id_flow_control : Nat) : FcWaitResult :=
  match incoming with
  | [] => .timeout
  | none :: _ => .timeout
  | some (aid, fc_frame) :: rest =>
    if aid ≠ arbitration_id_flow_control then
      wait_for_fc rest arbitration_id_flow_control
    else
      match decode_fc fc_frame with
      | some (fs, block_size, st_min) =>
        if fs = FC_FS_WAIT then
          wait_for_fc rest arbitration_id_flow_control
        else if fs = FC_FS_CTS then
          .cts block_size (if st_min > 0x7F then 1 else st_min) rest
        else if fs = FC_FS_OVFLW then
          .overflow
        else
          .badFlowStatus
      | none =>
        -- decode_fc returned (None, None, None): no branch matches, the
        -- final else returns None.
        .badFlowStatus

/-- The outer block loop of `transmit` (lines 294-336): wait for an FC, send
`min(block_size, frames_left)` consecutive frames (`block_size = 0` meaning
all of them), repeat.  Returns the messages passed to `bus.send` and the
exit path. -/
def transmit_blocks_fuel (fuel : Nat) (frames_left : List (List Nat))
    (incoming : List (Option (Nat × List Nat)))
    (arbitration_id arbitration_id_flow_control : Nat) :
    List CanMessage × TxOutcome :=
  match fuel with
  | 0 => ([], .done)   -- unreachable with fuel = frames_left.length > 0
  | fuel + 1 =>
    match frames_left with
    | [] => ([], .done)
    | _ :: _ =>
      match wait_for_fc incoming arbitration_id_flow_control with
      | .timeout => ([], .fcTimeout)
      | .overflow => ([], .peerOverflow)
      | .badFlowStatus => ([], .badFlowStatus)
      | .cts block_size _st_min rest_incoming =>
        let n := if frames_left.length < block_size ∨ block_size = 0 then
                   frames_left.length
                 else
                   block_size
        let sent_now := (frames_left.take n).map
          (fun f => send_message f arbitration_id false)
        let r := transmit_blocks_fuel fuel (frames_left.drop n) rest_incoming
          arbitration_id arbitration_id_flow_control
        (sent_now ++ r.1, r.2)

/-- The block loop with exactly enough fuel: every pass sends at least one
frame, so `frames_left.length` iterations always suffice. -/
def transmit_blocks (frames_left : List (List Nat))
    (incoming : List (Option (Nat × List Nat)))
    (arbitration_id arbitration_id_flow_control : Nat) :
    List CanMessage × TxOutcome :=
  transmit_blocks_fuel frames_left.length frames_left incoming
    arbitration_id arbitration_id_flow_control

/-- Python `transmit` (lines 271-336): nothing for an empty frame list, a single
send for a single frame, and the FF followed by flow-controlled blocks
otherwise. -/
def transmit (frames : List (List Nat))
    (incoming : List (Option (Nat × List Nat)))
    (arbitration_id arbitration_id_flow_control : Nat) :
    List CanMessage × TxOutcome :=
  match frames with
  | [] => ([], .noData)
  | [f] => ([send_message f arbitration_id false], .done)
  | f :: f2 :: rest =>
    let r := transmit_blocks (f2 :: rest) incoming
      arbitration_id arbitration_id_flow_control
    (send_message f arbitration_id false :: r.1, r.2)

/-- Python exception kinds raised by the modelled code. -/
inductive PyError
  | indexError
  | valueError
  | typeError
  | attributeError
deriving DecidableEq, Repr

/-- A Python value passed as the `padding_value` argument of
`IsoTp.__init__`: `None`, an (unbounded) integer, or any other object. -/
inductive PyVal
  | none
  | int (n : Int)
  | nonInt (descr : String)
deriving DecidableEq, Repr

/-- The padding attributes set by `IsoTp.__init__`. -/
structure PaddingState where
  padding_value : PyVal
  padding_enabled : Bool
deriving DecidableEq, Repr

/-- The padding-policy validation of `IsoTp.__init__` (lines 53-61):
`None` disables padding; a non-integer raises `TypeError`; an integer
outside 0x00-0xFF raises `ValueError`; any other integer enables padding. -/
def isotp_init_padding : PyVal → Except PyError PaddingState
  | .none => .ok { padding_value := .none, padding_enabled := false }
  | .int n =>
    if ¬ (0 ≤ n ∧ n ≤ 0xFF) then
      .error .valueError
    else
      .ok { padding_value := .int n, padding_enabled := true }
  | .nonInt _ => .error .typeError

end IsoTp

namespace CanActions

open IsoTp (CanMessage PyError)

/-- Python `CanActions.send` (can_actions.py, lines 128-152).  `self_arb_id` is the
instance attribute `self.arb_id`; `arb_id` and `is_extended` are the
optional call arguments.  Payloads longer than 8 bytes raise `IndexError`;
a missing arbitration ID raises `ValueError`; the extended flag is computed
from the arbitration ID only when `is_extended` is not supplied. -/
def send (self_arb_id : Option Nat) (data : List Nat) (arb_id : Option Nat)
    (is_extended : Option Bool) (is_error is_remote : Bool) :
    Except PyError CanMessage :=
  if data.length > 8 then
    .error .indexError
  else
    let resolved := match arb_id with
      | some a => some a
      | none => self_arb_id
    match resolved with
    | none => .error .valueError
    | some a =>
      let ext := match is_extended with
        | some b => b
        | none => decide (a > ARBITRATION_ID_MAX)
      .ok { arbitration_id := a
            data := data
            is_extended_id := ext
            is_error_frame := is_error
            is_remote_frame := is_remote }

/-- Observable outcome of `bruteforce_arbitration_id`: the messages passed
to `bus.send`, the final notifier listener list (identified by the
arbitration ID whose `callback(arb_id)` closure is installed), and whether
`callback_end` was invoked. -/
structure BruteforceResult where
  sent : List CanMessage
  listeners : List Nat
  callback_end_fired : Bool
deriving DecidableEq, Repr

/-- The `for arb_id in range(min_id, max_id + 1)` loop of
`bruteforce_arbitration_id` (can_actions.py, lines 178-196), iterating over
the id list `ids` (the caller passes `range(min_id, max_id + 1)` as
`List.range' min_id (max_id + 1 - min_id)`).  `stop id` is true when
`self.bruteforce_running` has been cleared by the time the loop checks it
after sending to `id` (cooperative stop).  On stop the listeners are
cleared and the function returns without calling `callback_end`; after an
uninterrupted run the listeners are cleared and `callback_end` called only
when `callback_end` was provided. -/
def bruteforce_loop (data : List Nat) (ids : List Nat)
    (stop : Nat → Bool) (callback_end_provided : Bool)
    (listeners : List Nat) : BruteforceResult :=
  match ids with
  | [] =>
    -- Loop finished without being stopped (lines 193-196).
    if callback_end_provided then
      { sent := [], listeners := [], callback_end_fired := true }
    else
      { sent := [], listeners := listeners, callback_end_fired := false }
  | arb_id :: rest =>
    let msg : CanMessage :=
      { arbitration_id := arb_id
        data := data
        is_extended_id := decide (arb_id > ARBITRATION_ID_MAX)
        is_error_frame := false
        is_remote_frame := false }
    if stop arb_id then
      { sent := [msg], listeners := [], callback_end_fired := false }
    else
      let r := bruteforce_loop data rest stop callback_end_provided [arb_id]
      { r with sent := msg :: r.sent }

/-- The default-range resolution of `bruteforce_arbitration_id`
(can_actions.py, lines 164-172): a missing `min_id` falls back to
`ARBITRATION_ID_MIN`; a missing `max_id` falls back to the standard or the
extended maximum depending on whether `min_id` fits the standard format. -/
def resolve_range (min_id max_id : Option Nat) : Nat × Nat :=
  let min_v := match min_id with
    | some m => m
    | none => ARBITRATION_ID_MIN
  let max_v := match max_id with
    | some m => m
    | none =>
      if min_v ≤ ARBITRATION_ID_MAX then ARBITRATION_ID_MAX
      else ARBITRATION_ID_MAX_EXTENDED
  (min_v, max_v)

/-- Python `bruteforce_arbitration_id` (can_actions.py, lines 154-196): default
range resolution, the `min > max` sanity check (which fires `callback_end`
without touching the listeners), then the send loop.  The notifier listener
list is assumed empty on entry. -/
def bruteforce_arbitration_id (data : List Nat) (min_id max_id : Option Nat)
    (stop : Nat → Bool) (callback_end_provided : Bool) : BruteforceResult :=
  let r := resolve_range min_id max_id
  if r.1 > r.2 then
    { sent := [], listeners := [], callback_end_fired := callback_end_provided }
  else
    bruteforce_loop data (List.range' r.1 (r.2 + 1 - r.1)) stop
      callback_end_provided []

end CanActions

namespace Xcp

open IsoTp (PyError)

/-- The entries written in the `XCP_ERROR_CODES` literal (xcp.py,
lines 9-28).  Note: the source builds this object with set-literal braces
`{(code, (label, text)), ...}` although its comment calls it a dictionary,
so at runtime it is a Python `set` of pairs, not a `dict`. -/
def XCP_ERROR_CODES : List (Nat × String × String) :=
  [(0x00, ("ERR_CMD_SYNC", "Command processor synchronisation.")),
   (0x10, ("ERR_CMD_BUSY", "Command was not executed.")),
   (0x11, ("ERR_DAQ_ACTIVE", "Command rejected because DAQ is running.")),
   (0x12, ("ERR_PGM_ACTIVE", "Command rejected because PGM is running.")),
   (0x20, ("ERR_CMD_UNKNOWN", "Unknown command or not implemented optional command.")),
   (0x21, ("ERR_CMD_SYNTAX", "Command syntax invalid.")),
   (0x22, ("ERR_OUT_OF_RANGE", "Command syntax valid but command parameter(s) out of range.")),
   (0x23, ("ERR_WRITE_PROTECTED", "The memory location is write protected.")),
   (0x24, ("ERR_ACCESS_DENIED", "The memory location is not accessible.")),
   (0x25, ("ERR_ACCESS_LOCKED", "Access denied, Seed & Key is required.")),
   (0x26, ("ERR_PAGE_NOT_VALID", "Selected page not available.")),
   (0x27, ("ERR_MODE_NOT_VALID", "Selected page mode not available.")),
   (0x28, ("ERR_SEGMENT_NOT_VALID", "Selected segment not valid.")),
   (0x29, ("ERR_SEQUENCE", "Sequence error.")),
   (0x2A, ("ERR_DAQ_CONFIG", "DAQ configuration not valid.")),
   (0x30, ("ERR_MEMORY_OVERFLOW", "Memory overflow error.")),
   (0x31, ("ERR_GENERIC", "Generic error.")),
   (0x32, ("ERR_VERIFY", "The slave internal program verify routine detects an error."))]

/-- Outcome of decoding an XCP error frame. -/
inductive XcpErrorDecode
  | notErrorMessage
  | decoded (label descr : String)
  | raised (e : PyError)
deriving DecidableEq, Repr

/-- Python `decode_xcp_error` (xcp.py, lines 90-102) as the source executes.
A frame whose first byte is not 0xFE is reported as "not a valid error
message".  For an actual error frame the source evaluates
`XCP_ERROR_CODES.get(...)`; `XCP_ERROR_CODES` is a Python `set` (see above)
and has no `get` attribute, so the call raises `AttributeError` before the
error code is even read. -/
def decode_xcp_error (data : List Nat) : XcpErrorDecode :=
  match data with
  | [] => .raised .indexError       -- `data[0]` on an empty payload
  | b0 :: _ =>
    if b0 ≠ 0xFE then
      .notErrorMessage
    else
      .raised .attributeError       -- `set` object has no attribute `get`

/-- Modelled from the spec: the lookup `decode_xcp_error` documents
("Dictionary of XCP error codes, mapping (code -> (error, description))",
xcp.py line 8) and the spec describes ("also carries the decoded label",
"Error table 0x00..0x32"): a dict lookup of `data[1]` with default
`("UNKNOWN", "Unknown error")`. -/
def decode_xcp_error_intended (data : List Nat) : XcpErrorDecode :=
  match data with
  | [] => .raised .indexError
  | b0 :: rest =>
    if b0 ≠ 0xFE then
      .notErrorMessage
    else
      match rest with
      | [] => .raised .indexError   -- `data[1]` missing
      | code :: _ =>
        let r := (XCP_ERROR_CODES.lookup code).getD ("UNKNOWN", "Unknown error")
        .decoded r.1 r.2

/-- The address-byte computation of `xcp_memory_dump` (xcp.py,
lines 426-434): mask the start address to 32 bits and emit its four bytes
least-significant first. -/
def xcp_address_bytes (start_address : Nat) : List Nat :=
  let n := start_address &&& 0xFFFFFFFF
  [n &&& 0xFF, (n >>> 8) &&& 0xFF, (n >>> 16) &&& 0xFF, (n >>> 24) &&& 0xFF]

/-- The Set MTA frame built by `handle_connect_reply` (xcp.py,
lines 405-424) from a positive connect reply: bit 0 of reply byte 2 selects
the byte order; when it is 0 (Intel / LSB-first) the LSB-first address list
`r` is reversed before being embedded in `[0xF6, 0, 0, 0, r[0..3]]`.
Replies that are not positive (or too short for the `data[2]` access) yield
no Set MTA frame. -/
def set_mta_frame (connect_reply : List Nat) (start_address : Nat) :
    Option (List Nat) :=
  match connect_reply with
  | b0 :: _ :: b2 :: _ =>
    if b0 = 0xFF then
      let msb_format := b2 &&& 1
      let r0 := xcp_address_bytes start_address
      let r := if msb_format ≠ 0 then r0 else r0.reverse
      match r with
      | [a0, a1, a2, a3] => some [0xF6, 0x00, 0x00, 0x00, a0, a1, a2, a3]
      | _ => none
    else
      none
  | _ => none

end Xcp

/-! ## Helper lemmas on the PCI bit arithmetic -/

set_option maxRecDepth 8000

theorem sf_head_type : ∀ L < 16, (L >>> 4) &&& 0xF = 0 := by decide

theorem sf_head_low : ∀ L < 16, L &&& 0xF = L := by decide

theorem ff_head_type : ∀ x < 16, ((16 ||| x) >>> 4) &&& 0xF = 1 := by decide

theorem ff_head_low : ∀ x < 16, (16 ||| x) &&& 0xF = x := by decide

theorem cf_head_type : ∀ s < 16, ((32 ||| s) >>> 4) &&& 0xF = 2 := by decide

theorem cf_head_low : ∀ s < 16, (32 ||| s) &&& 0xF = s := by decide

theorem ff_dl_recompose (L : Nat) : ((L >>> 8) <<< 8) ||| (L &&& 0xFF) = L := by
  have h : (0xFF : Nat) = 2 ^ 8 - 1 := rfl
  rw [Nat.shiftRight_eq_div_pow, Nat.shiftLeft_eq, h,
    Nat.and_pow_two_sub_one_eq_mod, Nat.mul_comm,
    ← Nat.mul_add_lt_is_or (Nat.mod_lt _ (by norm_num)) (L / 2 ^ 8)]
  exact Nat.div_add_mod L (2 ^ 8)

theorem shiftRight8_lt_16 {L : Nat} (h : L < 4096) : L >>> 8 < 16 := by
  rw [Nat.shiftRight_eq_div_pow]
  omega

/-! ## C2: length validation of `get_frames_from_message` -/

/-- C2 (counterexample): the claim states that encoding fails for an empty
payload, but `get_frames_from_message` only checks the upper bound; the
empty message is encoded as a single frame with PCI byte 0x00 and no error
is raised. -/
theorem C2_counterexample :
    IsoTp.get_frames_from_message [] (some 0x00) =
      .ok [[0x00, 0x00, 0x00, 0x00, 0x00, 0x00, 0x00, 0x00]] := rfl

/-- C2 (amended): `get_frames_from_message P padding` fails (with the
`ValueError` "Message too long for ISO-TP") if and only if
`len(P) > 4095`; every shorter payload, the empty one included, yields a
frame list without error. -/
theorem C2_length_rejection (P : List Nat) (padding : Option Nat) :
    (IsoTp.get_frames_from_message P padding =
      .error "Message too long for ISO-TP") ↔ 4095 < P.length := by
  simp only [IsoTp.get_frames_from_message, IsoTp.MAX_MESSAGE_LENGTH,
    IsoTp.MAX_SF_LENGTH]
  split_ifs with h1 h2 <;> simp_all

/-! ## C10: padding-policy validation in `IsoTp.__init__` -/

/-- C10: constructing an `IsoTp` validates the padding policy:
`None` disables padding, a non-integer value raises `TypeError`, an integer
outside 0x00-0xFF raises `ValueError`, and every integer in 0x00-0xFF
enables padding with that byte value. -/
theorem C10_padding_validation :
    IsoTp.isotp_init_padding .none =
      .ok { padding_value := .none, padding_enabled := false } ∧
    (∀ n : Int, IsoTp.isotp_init_padding (.int n) =
      if 0 ≤ n ∧ n ≤ 0xFF then
        .ok { padding_value := .int n, padding_enabled := true }
      else
        .error .valueError) ∧
    (∀ descr, IsoTp.isotp_init_padding (.nonInt descr) = .error .typeError) := by
  refine ⟨rfl, ?_, fun _ => rfl⟩
  intro n
  by_cases h : 0 ≤ n ∧ n ≤ 0xFF
  · simp [IsoTp.isotp_init_padding, h]
  · simp [IsoTp.isotp_init_padding, h]

/-! ## C8: the XCP error decoder -/

/-- C8: the claim describes the intended behaviour (the code's own comment
calls `XCP_ERROR_CODES` a dictionary), but the source instantiates it with
set-literal braces, so `XCP_ERROR_CODES.get(...)` raises `AttributeError`
on every error frame instead of surfacing the label.  The decoder as
written crashes on `[0xFE, 0x20, ...]`; the intended dictionary lookup
yields `ERR_CMD_UNKNOWN` for 0x20, the `UNKNOWN` label for a code absent
from the table, and each table entry's own label for its code. -/
theorem C8_xcp_error_decode :
    Xcp.decode_xcp_error [0xFE, 0x20, 0, 0, 0, 0, 0, 0] =
      .raised .attributeError ∧
    (∀ code rest, Xcp.decode_xcp_error (0xFE :: code :: rest) =
      .raised .attributeError) ∧
    Xcp.decode_xcp_error_intended [0xFE, 0x20, 0, 0, 0, 0, 0, 0] =
      .decoded "ERR_CMD_UNKNOWN"
        "Unknown command or not implemented optional command." ∧
    Xcp.decode_xcp_error_intended [0xFE, 0x33, 0, 0, 0, 0, 0, 0] =
      .decoded "UNKNOWN" "Unknown error" ∧
    Xcp.XCP_ERROR_CODES.all
      (fun e => Xcp.decode_xcp_error_intended [0xFE, e.1] ==
        .decoded e.2.1 e.2.2) = true :=
  ⟨rfl, fun _ _ => rfl, rfl, rfl, rfl⟩

/-! ## C4: Set MTA address byte order after an LSB-first connect reply -/

/-- C4 (counterexample): after a Connect reply whose byte 2 has bit 0 = 0,
the source *reverses* the little-endian list `r` (xcp.py line 419), so the
Set MTA frame for start address 0x1FFFB000 carries the big-endian bytes
`1F FF B0 00`, not the claimed `00 B0 FF 1F`. -/
theorem C4_counterexample :
    Xcp.set_mta_frame [0xFF, 0x15, 0x00, 0x08, 0x08, 0x00, 0x01, 0x01]
        0x1FFFB000 =
      some [0xF6, 0x00, 0x00, 0x00, 0x1F, 0xFF, 0xB0, 0x00] ∧
    ([0xF6, 0x00, 0x00, 0x00, 0x1F, 0xFF, 0xB0, 0x00] : List Nat) ≠
      [0xF6, 0x00, 0x00, 0x00, 0x00, 0xB0, 0xFF, 0x1F] := by
  exact ⟨rfl, by decide⟩

/-- C4 (amended): after a positive Connect reply whose byte 2 has
bit 0 = 0 (LSB-first slave), the Set MTA frame embeds the *reverse* of the
little-endian address list, i.e. the natural big-endian byte order of the
address; for 0x1FFFB000 the frame is `[0xF6,0,0,0,0x1F,0xFF,0xB0,0x00]`. -/
theorem C4_mta_byte_order (b1 b2 : Nat) (rest : List Nat) (addr : Nat)
    (h : b2 &&& 1 = 0) :
    Xcp.set_mta_frame (0xFF :: b1 :: b2 :: rest) addr =
      some ([0xF6, 0x00, 0x00, 0x00] ++ (Xcp.xcp_address_bytes addr).reverse) := by
  simp [Xcp.set_mta_frame, Xcp.xcp_address_bytes, h]

/-- C4 (witness): the amended claim at the concrete connect reply and start
address of the spec scenario. -/
theorem C4_mta_byte_order_witness :
    Xcp.set_mta_frame [0xFF, 0x15, 0x00, 0x08, 0x08, 0x00, 0x01, 0x01]
        0x1FFFB000 =
      some ([0xF6, 0x00, 0x00, 0x00] ++
        (Xcp.xcp_address_bytes 0x1FFFB000).reverse) :=
  C4_mta_byte_order 0x15 0x00 [0x08, 0x08, 0x00, 0x01, 0x01] 0x1FFFB000 rfl

/-! ## C5: peer overflow aborts a multi-frame transmit -/

/-- C5: during a multi-frame transmit, when the first flow-control frame
accepted after the First Frame carries flow status Overflow (FS = 2), the
transmit aborts with the peer-overflow outcome having sent only the First
Frame — no Consecutive Frames at all.  (`wait_for_fc incoming fc =
.overflow` states precisely that the wait loop skips other-ID frames and
WAIT frames and that the first accepted FC has FS = 2.) -/
theorem C5_overflow_aborts (f0 f1 : List Nat) (rest : List (List Nat))
    (incoming : List (Option (Nat × List Nat))) (arb fc : Nat)
    (h : IsoTp.wait_for_fc incoming fc = .overflow) :
    IsoTp.transmit (f0 :: f1 :: rest) incoming arb fc =
      ([IsoTp.send_message f0 arb false], .peerOverflow) := by
  simp [IsoTp.transmit, IsoTp.transmit_blocks, IsoTp.transmit_blocks_fuel, h]

/-- C5 (witness): a ten-byte message (FF plus one CF) whose peer replies
with an FS=2 flow-control frame. -/
theorem C5_overflow_aborts_witness :
    IsoTp.transmit [[0x10, 0x0A, 1, 2, 3, 4, 5, 6], [0x21, 7, 8, 9, 10, 0, 0, 0]]
        [some (0x200, [0x32, 0x00, 0x00, 0x00, 0x00, 0x00, 0x00, 0x00])]
        0x100 0x200 =
      ([IsoTp.send_message [0x10, 0x0A, 1, 2, 3, 4, 5, 6] 0x100 false],
        .peerOverflow) :=
  C5_overflow_aborts _ _ [] _ 0x100 0x200 rfl

/-! ## C3: frames arriving while the receiver is idle -/

/-- C3 (counterexample): the claim says a CF or FC arriving in the Idle
state is ignored and only unknown PCI types yield the protocol-error
outcome.  In the source, a Flow Control frame (type nibble 3) falls into
the same "Invalid frame type" branch as unknown types and ends the call
with `None`; and a CF with sequence number 1 satisfies `(0+1)%16 == SN`,
is appended to the (empty) message, passes the `len(message) >=
message_length` check against the initial length 0 and terminates the call
immediately. -/
theorem C3_counterexample :
    IsoTp.indication 0x100 0x200
        [(0x100, [0x30, 0x00, 0x00, 0x00, 0x00, 0x00, 0x00, 0x00])] true false =
      .protocolError ∧
    IsoTp.indication 0x100 0x200 [(0x100, [0x21, 0xAA])] false false =
      .message [0xAA] := ⟨rfl, rfl⟩

/-- C3 (amended): in the Idle state (no SF or FF received yet), a
Consecutive Frame with sequence number other than 1 on a matching
arbitration ID is ignored — the loop simply continues; a Consecutive Frame
with sequence number 1 terminates the call at once, returning the empty
message under padding trimming (untrimmed, its payload); and a Flow
Control frame — exactly like any frame whose type nibble is 3 or above —
takes the "Invalid frame type" branch and yields the protocol-error
outcome. -/
theorem C3_idle_behaviour :
    (∀ req resp aid b0 payload rest trim ffo,
        (aid = req ∨ aid = resp) →
        (b0 >>> 4) &&& 0xF = 2 →
        b0 &&& 0xF ≠ 1 →
        IsoTp.indication_run req resp ((aid, b0 :: payload) :: rest) 0
            (some []) (some 0) trim ffo =
          IsoTp.indication_run req resp rest 0 (some []) (some 0) trim ffo) ∧
    (∀ req resp aid b0 payload rest trim ffo,
        (aid = req ∨ aid = resp) →
        (b0 >>> 4) &&& 0xF = 2 →
        b0 &&& 0xF = 1 →
        IsoTp.indication_run req resp ((aid, b0 :: payload) :: rest) 0
            (some []) (some 0) trim ffo =
          .message (if trim then [] else payload)) ∧
    (∀ req resp aid b0 payload rest trim ffo,
        (aid = req ∨ aid = resp) →
        3 ≤ (b0 >>> 4) &&& 0xF →
        IsoTp.indication_run req resp ((aid, b0 :: payload) :: rest) 0
            (some []) (some 0) trim ffo = .protocolError) := by
  refine ⟨?_, ?_, ?_⟩
  · intro req resp aid b0 payload rest trim ffo haid htype hsn
    simp [IsoTp.indication_run, haid, htype, Ne.symm hsn, IsoTp.SF_FRAME_ID,
      IsoTp.FF_FRAME_ID, IsoTp.CF_FRAME_ID, IsoTp.decode_cf, IsoTp.CF_PCI_LENGTH]
  · intro req resp aid b0 payload rest trim ffo haid htype hsn
    simp [IsoTp.indication_run, haid, htype, hsn, IsoTp.SF_FRAME_ID,
      IsoTp.FF_FRAME_ID, IsoTp.CF_FRAME_ID, IsoTp.decode_cf, IsoTp.CF_PCI_LENGTH]
  · intro req resp aid b0 payload rest trim ffo haid htype
    have h0 : (b0 >>> 4) &&& 0xF ≠ 0 := by omega
    have h1 : (b0 >>> 4) &&& 0xF ≠ 1 := by omega
    have h2 : (b0 >>> 4) &&& 0xF ≠ 2 := by omega
    simp [IsoTp.indication_run, haid, h0, h1, h2, IsoTp.SF_FRAME_ID,
      IsoTp.FF_FRAME_ID, IsoTp.CF_FRAME_ID]

/-- C3 (witness): the amended behaviour at concrete frames — a CF with
SN 2 is skipped, a CF with SN 1 ends the call with its payload, an FC
yields the protocol error outcome. -/
theorem C3_idle_behaviour_witness :
    IsoTp.indication_run 0x100 0x200 [(0x100, [0x22, 0xBB])] 0 (some [])
        (some 0) true false =
      IsoTp.indication_run 0x100 0x200 [] 0 (some []) (some 0) true false ∧
    IsoTp.indication_run 0x100 0x200 [(0x200, [0x21, 0xAA])] 0 (some [])
        (some 0) false false = .message [0xAA] ∧
    IsoTp.indication_run 0x100 0x200 [(0x100, [0x30, 0x00, 0x00])] 0 (some [])
        (some 0) true false = .protocolError :=
  ⟨C3_idle_behaviour.1 0x100 0x200 0x100 0x22 [0xBB] [] true false
      (Or.inl rfl) rfl (by decide),
   C3_idle_behaviour.2.1 0x100 0x200 0x200 0x21 [0xAA] [] false false
      (Or.inr rfl) rfl rfl,
   C3_idle_behaviour.2.2 0x100 0x200 0x100 0x30 [0x00, 0x00] [] true false
      (Or.inl rfl) (by decide)⟩

/-! ## C7: extended-ID flag on emitted frames -/

theorem bruteforce_loop_sent_extended (ids : List Nat) :
    ∀ data stop provided l0 m,
      m ∈ (CanActions.bruteforce_loop data ids stop provided l0).sent →
      m.is_extended_id = decide (m.arbitration_id > ARBITRATION_ID_MAX) := by
  induction ids with
  | nil =>
    intro data stop provided l0 m hm
    simp only [CanActions.bruteforce_loop] at hm
    split at hm <;> simp at hm
  | cons id rest ih =>
    intro data stop provided l0 m hm
    simp only [CanActions.bruteforce_loop] at hm
    split at hm
    · simp at hm
      subst hm
      rfl
    · simp at hm
      rcases hm with hm | hm
      · subst hm
        rfl
      · exact ih data stop provided [id] m hm

/-- C7 (counterexample): the claim covers `CanActions.send` "for all
argument combinations", but an explicit `is_extended=False` argument
overrides the automatic choice: the frame below is emitted with
arbitration ID 0x800 > 0x7FF and the extended flag cleared. -/
theorem C7_counterexample :
    CanActions.send none [0x00] (some 0x800) (some false) false false =
      .ok { arbitration_id := 0x800, data := [0x00], is_extended_id := false,
            is_error_frame := false, is_remote_frame := false } := rfl

/-- C7 (amended): every frame emitted by `IsoTp.send_message` or by the
`bruteforce_arbitration_id` loop with an arbitration ID above 0x7FF carries
the extended-ID flag, and so does every frame emitted by `CanActions.send`
when the caller does not pass an explicit `is_extended` argument; an
explicit `is_extended=False` overrides the automatic flag. -/
theorem C7_extended_flag :
    (∀ data aid force, ARBITRATION_ID_MAX < aid →
        (IsoTp.send_message data aid force).is_extended_id = true) ∧
    (∀ self data aid err rem m,
        CanActions.send self data aid none err rem = .ok m →
        ARBITRATION_ID_MAX < m.arbitration_id →
        m.is_extended_id = true) ∧
    (∀ data min_id max_id stop provided m,
        m ∈ (CanActions.bruteforce_arbitration_id data min_id max_id stop
          provided).sent →
        ARBITRATION_ID_MAX < m.arbitration_id →
        m.is_extended_id = true) := by
  refine ⟨?_, ?_, ?_⟩
  · intro data aid force h
    simp [IsoTp.send_message, h]
  · intro self data aid err rem m hok hgt
    simp only [CanActions.send] at hok
    split at hok
    · exact absurd hok (by simp)
    · split at hok
      · exact absurd hok (by simp)
      · rw [Except.ok.injEq] at hok
        subst hok
        simp only at hgt ⊢
        simp [hgt]
  · intro data min_id max_id stop provided m hm hgt
    simp only [CanActions.bruteforce_arbitration_id] at hm
    split at hm
    · simp at hm
    · rw [bruteforce_loop_sent_extended _ data stop provided [] m hm]
      simp [hgt]

/-- C7 (witness): the amended statement at concrete frames — an
`IsoTp.send_message` to 0x800, a `CanActions.send` to 0x800 without an
explicit flag, and the frame sent to 0x800 by a one-element bruteforce. -/
theorem C7_extended_flag_witness :
    (IsoTp.send_message [0x00] 0x800 false).is_extended_id = true ∧
    ({ arbitration_id := 0x800, data := [0x00], is_extended_id := true,
       is_error_frame := false, is_remote_frame := false } :
        IsoTp.CanMessage).is_extended_id = true ∧
    ({ arbitration_id := 0x800, data := [0x00], is_extended_id := true,
       is_error_frame := false, is_remote_frame := false } :
        IsoTp.CanMessage).is_extended_id = true :=
  ⟨C7_extended_flag.1 [0x00] 0x800 false (by decide),
   C7_extended_flag.2.1 none [0x00] (some 0x800) false false _ rfl (by decide),
   C7_extended_flag.2.2 [0x00] (some 0x800) (some 0x800) (fun _ => false) false _
      (by decide) (by decide)⟩

/-! ## C9: bruteforce termination behaviour -/

theorem bruteforce_loop_stopped (ids : List Nat) :
    ∀ data stop provided l0 i, i ∈ ids → stop i = true →
      (CanActions.bruteforce_loop data ids stop provided l0).listeners = [] ∧
      (CanActions.bruteforce_loop data ids stop provided l0).callback_end_fired
        = false := by
  induction ids with
  | nil =>
    intro data stop provided l0 i hi
    simp at hi
  | cons id rest ih =>
    intro data stop provided l0 i hi hstop
    simp only [CanActions.bruteforce_loop]
    split
    · exact ⟨rfl, rfl⟩
    · rename_i hns
      rcases List.mem_cons.mp hi with rfl | hmem
      · rw [hstop] at hns
        exact absurd rfl hns
      · simpa using ih data stop provided [id] i hmem hstop

theorem bruteforce_loop_completed (ids : List Nat) :
    ∀ data stop provided l0, (∀ i ∈ ids, stop i = false) →
      CanActions.bruteforce_loop data ids stop provided l0 =
        { sent := ids.map (fun id =>
            { arbitration_id := id
              data := data
              is_extended_id := decide (id > ARBITRATION_ID_MAX)
              is_error_frame := false
              is_remote_frame := false })
          listeners := if provided then [] else
            ids.foldl (fun _ i => [i]) l0
          callback_end_fired := provided } := by
  induction ids with
  | nil =>
    intro data stop provided l0 _
    simp only [CanActions.bruteforce_loop, List.map_nil, List.foldl_nil]
    split <;> simp_all
  | cons id rest ih =>
    intro data stop provided l0 hns
    simp only [CanActions.bruteforce_loop]
    rw [hns id (List.mem_cons_self id rest)]
    simp only [Bool.false_eq_true, if_false]
    rw [ih data stop provided [id] (fun i hi => hns i (List.mem_cons_of_mem id hi))]
    simp

theorem foldl_last_range' (k : Nat) :
    ∀ s l0, (List.range' s (k + 1)).foldl (fun _ i => [i]) l0 = [s + k] := by
  induction k with
  | zero => intro s l0; simp [List.range']
  | succ k ih =>
    intro s l0
    rw [List.range'_succ, List.foldl_cons, ih (s + 1) [s]]
    congr 1
    omega

/-- C9 (counterexample): the claim says that on completion *or stop* the
listener list is cleared and `callback_end` fires when provided.  In the
source the cooperative-stop path returns without calling `callback_end`,
and the completion path clears the listeners only inside the
`if callback_end:` block, so a run without `callback_end` leaves the last
callback installed. -/
theorem C9_counterexample :
    (CanActions.bruteforce_arbitration_id [0x00] (some 0) (some 5)
        (fun _ => true) true).callback_end_fired = false ∧
    (CanActions.bruteforce_arbitration_id [0x00] (some 0) (some 5)
        (fun _ => false) false).listeners = [5] := ⟨rfl, rfl⟩

/-- C9 (amended): when `bruteforce_arbitration_id` is stopped cooperatively
(the stop flag observed after some iteration within the range), the
listener list is cleared but `callback_end` does *not* fire; when the loop
completes the whole range, `callback_end` fires exactly when it was
provided, and the listener list is cleared in that case only — without a
`callback_end` the listener installed for the last ID stays; an invalid
range (min > max) fires `callback_end` immediately and touches nothing. -/
theorem C9_termination :
    (∀ data min_v max_v stop provided i,
        min_v ≤ i → i ≤ max_v → stop i = true →
        (CanActions.bruteforce_arbitration_id data (some min_v) (some max_v)
            stop provided).listeners = [] ∧
        (CanActions.bruteforce_arbitration_id data (some min_v) (some max_v)
            stop provided).callback_end_fired = false) ∧
    (∀ data min_v max_v stop provided,
        min_v ≤ max_v → (∀ i, min_v ≤ i → i ≤ max_v → stop i = false) →
        (CanActions.bruteforce_arbitration_id data (some min_v) (some max_v)
            stop provided).callback_end_fired = provided ∧
        (CanActions.bruteforce_arbitration_id data (some min_v) (some max_v)
            stop provided).listeners =
          (if provided then [] else [max_v])) ∧
    (∀ data min_v max_v stop provided,
        max_v < min_v →
        CanActions.bruteforce_arbitration_id data (some min_v) (some max_v)
            stop provided =
          { sent := [], listeners := [], callback_end_fired := provided }) := by
  refine ⟨?_, ?_, ?_⟩
  · intro data min_v max_v stop provided i h1 h2 hstop
    have hle : min_v ≤ max_v := le_trans h1 h2
    simp only [CanActions.bruteforce_arbitration_id, CanActions.resolve_range]
    rw [if_neg (by omega)]
    exact bruteforce_loop_stopped _ data stop provided [] i
      (by
        rw [List.mem_range']
        exact ⟨i - min_v, by omega, by omega⟩)
      hstop
  · intro data min_v max_v stop provided hle hns
    simp only [CanActions.bruteforce_arbitration_id, CanActions.resolve_range]
    rw [if_neg (by omega)]
    rw [bruteforce_loop_completed _ data stop provided []
      (fun i hi => by
        rw [List.mem_range'] at hi
        obtain ⟨j, hj, rfl⟩ := hi
        exact hns _ (by omega) (by omega))]
    have hk : max_v + 1 - min_v = (max_v - min_v) + 1 := by omega
    rw [hk, foldl_last_range']
    have : min_v + (max_v - min_v) = max_v := by omega
    rw [this]
    exact ⟨rfl, rfl⟩
  · intro data min_v max_v stop provided hlt
    simp [CanActions.bruteforce_arbitration_id, CanActions.resolve_range, hlt]

/-- C9 (witness): the amended behaviour on concrete runs over the range
0..5 — stop at 3 clears listeners without firing `callback_end`, a full
run fires it and clears listeners when provided, keeps the last listener
when not, and an inverted range fires `callback_end` alone. -/
theorem C9_termination_witness :
    ((CanActions.bruteforce_arbitration_id [0x00] (some 0) (some 5)
        (fun i => i == 3) true).listeners = [] ∧
      (CanActions.bruteforce_arbitration_id [0x00] (some 0) (some 5)
        (fun i => i == 3) true).callback_end_fired = false) ∧
    ((CanActions.bruteforce_arbitration_id [0x00] (some 0) (some 5)
        (fun _ => false) false).callback_end_fired = false ∧
      (CanActions.bruteforce_arbitration_id [0x00] (some 0) (some 5)
        (fun _ => false) false).listeners = (if false then [] else [5])) ∧
    CanActions.bruteforce_arbitration_id [0x00] (some 6) (some 2)
        (fun _ => false) true =
      { sent := [], listeners := [], callback_end_fired := true } :=
  ⟨C9_termination.1 [0x00] 0 5 (fun i => i == 3) true 3 (by decide) (by decide)
      (by decide),
   C9_termination.2.1 [0x00] 0 5 (fun _ => false) false (by decide)
      (fun _ _ _ => rfl),
   C9_termination.2.2 [0x00] 6 2 (fun _ => false) true (by decide)⟩

/-! ## C6: consecutive-frame sequence numbers -/

theorem build_cfs_fuel_sns (fuel : Nat) :
    ∀ rest sn pe pv, rest.length ≤ fuel →
      (IsoTp.build_cfs_fuel fuel rest sn pe pv).map
          (fun f => f.headD 0 &&& 0xF) =
        (List.range ((rest.length + 6) / 7)).map
          (fun i => (sn + i + 1) % 16) := by
  induction fuel with
  | zero =>
    intro rest sn pe pv hfuel
    rw [List.eq_nil_of_length_eq_zero (Nat.le_zero.mp hfuel)]
    simp [IsoTp.build_cfs_fuel]
  | succ fuel ih =>
    intro rest sn pe pv hfuel
    by_cases hne : rest = []
    · subst hne
      simp [IsoTp.build_cfs_fuel]
    · have hlen : 0 < rest.length := List.length_pos.mpr hne
      have hsn1 : (sn + 1) % 16 < 16 := Nat.mod_lt _ (by norm_num)
      have hk : (rest.length + 6) / 7 = ((rest.drop 7).length + 6) / 7 + 1 := by
        simp only [List.length_drop]
        omega
      rw [IsoTp.build_cfs_fuel]
      simp only [IsoTp.MAX_CF_LENGTH]
      rw [if_neg hne, hk]
      rw [List.range_succ_eq_map]
      simp only [List.map_cons, List.map_map]
      congr 1
      · -- head byte of the first CF
        split_ifs with hp <;>
          simp [IsoTp.CF_FRAME_ID, cf_head_low _ hsn1]
      · -- remaining CFs, with the sequence counter advanced by one
        rw [ih (rest.drop 7) ((sn + 1) % 16) pe pv
          (by simp only [List.length_drop]; omega)]
        apply List.map_congr_left
        intro i _
        simp only [Function.comp_apply, Nat.succ_eq_add_one]
        omega

theorem build_cfs_fuel_length (fuel : Nat) :
    ∀ rest sn pe pv, rest.length ≤ fuel →
      (IsoTp.build_cfs_fuel fuel rest sn pe pv).length =
        (rest.length + 6) / 7 := by
  intro rest sn pe pv hfuel
  have h := build_cfs_fuel_sns fuel rest sn pe pv hfuel
  have := congrArg List.length h
  simpa using this

/-- C6: for every multi-frame message, the CF sequence numbers run
1, 2, ..., 15, 0, 1, ... starting at 1 after the FF; a message of length L
produces exactly `L / 7` consecutive frames after the first frame (so a
120-byte payload yields an FF and 17 CFs numbered 1..15,0,1, as the witness
instantiates). -/
theorem C6_cf_sequence (P : List Nat) (padding : Option Nat)
    (h8 : 8 ≤ P.length) (h4095 : P.length ≤ 4095) :
    ∃ frames, IsoTp.get_frames_from_message P padding = .ok frames ∧
      (frames.drop 1).map (fun f => f.headD 0 &&& 0xF) =
        (List.range (P.length / 7)).map (fun i => (i + 1) % 16) ∧
      frames.length = 1 + P.length / 7 := by
  have hfr : IsoTp.get_frames_from_message P padding =
      .ok ((((IsoTp.FF_FRAME_ID <<< 4) ||| (P.length >>> 8)) ::
              (P.length &&& 0xFF) :: P.take IsoTp.MAX_FF_LENGTH) ::
            IsoTp.build_cfs (P.drop IsoTp.MAX_FF_LENGTH) 0
              padding.isSome (padding.getD 0x00)) := by
    simp only [IsoTp.get_frames_from_message, IsoTp.MAX_MESSAGE_LENGTH,
      IsoTp.MAX_SF_LENGTH]
    rw [if_neg (by omega), if_neg (by omega)]
  refine ⟨_, hfr, ?_, ?_⟩
  · simp only [List.drop_succ_cons, List.drop_zero, IsoTp.build_cfs]
    rw [build_cfs_fuel_sns _ _ _ _ _ (le_refl _)]
    have : ((P.drop IsoTp.MAX_FF_LENGTH).length + 6) / 7 = P.length / 7 := by
      simp only [List.length_drop, IsoTp.MAX_FF_LENGTH]
      omega
    rw [this]
    apply List.map_congr_left
    intro i _
    simp
  · simp only [List.length_cons, IsoTp.build_cfs]
    rw [build_cfs_fuel_length _ _ _ _ _ (le_refl _)]
    simp only [List.length_drop, IsoTp.MAX_FF_LENGTH]
    omega

/-- C6 (witness): the 120-byte payload of the claim — an FF plus 17 CFs
whose sequence numbers are 1, 2, ..., 15, 0, 1. -/
theorem C6_cf_sequence_witness :
    (∃ frames,
      IsoTp.get_frames_from_message (List.replicate 120 0xAB) (some 0x00) =
        .ok frames ∧
      (frames.drop 1).map (fun f => f.headD 0 &&& 0xF) =
        (List.range ((List.replicate 120 0xAB).length / 7)).map
          (fun i => (i + 1) % 16) ∧
      frames.length = 1 + (List.replicate 120 0xAB).length / 7) ∧
    (IsoTp.get_frames_from_message (List.replicate 120 0xAB) (some 0x00)).map
        (fun frames => (frames.drop 1).map (fun f => f.headD 0 &&& 0xF)) =
      .ok [1, 2, 3, 4, 5, 6, 7, 8, 9, 10, 11, 12, 13, 14, 15, 0, 1] :=
  ⟨C6_cf_sequence (List.replicate 120 0xAB) (some 0x00) (by decide) (by decide),
   rfl⟩

/-! ## C1: ISO-TP round trip -/

theorem indication_run_cf_step (req resp sn L : Nat) (payload acc : List Nat)
    (ffo : Bool) (restIn : List (Nat × List Nat)) :
    IsoTp.indication_run req resp
        ((req, ((IsoTp.CF_FRAME_ID <<< 4) ||| ((sn + 1) % 16)) :: payload)
          :: restIn)
        sn (some acc) (some L) true ffo =
      (if (acc ++ payload).length ≥ L then
        .message ((acc ++ payload).take L)
      else
        IsoTp.indication_run req resp restIn ((sn + 1) % 16)
          (some (acc ++ payload)) (some L) true ffo) := by
  have hsn1 : (sn + 1) % 16 < 16 := Nat.mod_lt _ (by norm_num)
  rw [IsoTp.indication_run]
  simp [IsoTp.CF_FRAME_ID, IsoTp.SF_FRAME_ID, IsoTp.FF_FRAME_ID,
    IsoTp.decode_cf, IsoTp.CF_PCI_LENGTH, cf_head_type _ hsn1,
    cf_head_low _ hsn1]

theorem indication_run_cfs (fuel : Nat) :
    ∀ rest acc sn pe pv L req resp ffo,
      rest.length ≤ fuel → rest ≠ [] → acc.length + rest.length = L →
      IsoTp.indication_run req resp
          ((IsoTp.build_cfs_fuel fuel rest sn pe pv).map (fun f => (req, f)))
          sn (some acc) (some L) true ffo =
        .message (acc ++ rest) := by
  induction fuel with
  | zero =>
    intro rest acc sn pe pv L req resp ffo hf hne _
    exact absurd (List.eq_nil_of_length_eq_zero (Nat.le_zero.mp hf)) hne
  | succ fuel ih =>
    intro rest acc sn pe pv L req resp ffo hf hne hlen
    rw [IsoTp.build_cfs_fuel]
    simp only [IsoTp.MAX_CF_LENGTH]
    rw [if_neg hne]
    by_cases hc : (¬pe = true) ∧ rest.length < 7
    · -- unpadded short last CF: the frame carries exactly the tail
      rw [if_pos hc]
      rw [List.take_of_length_le (by omega)]
      simp only [List.map_cons]
      rw [indication_run_cf_step]
      rw [if_pos (by simp only [List.length_append]; omega)]
      rw [List.take_of_length_le (by simp only [List.length_append]; omega)]
    · rw [if_neg hc]
      by_cases hlast : rest.length ≤ 7
      · -- last CF, padded (or exactly seven bytes long)
        rw [List.take_of_length_le hlast]
        simp only [List.map_cons]
        rw [indication_run_cf_step]
        rw [if_pos (by
          simp only [List.length_append, List.length_replicate]; omega)]
        rw [← List.append_assoc]
        rw [List.take_left' (by simp only [List.length_append]; omega)]
      · -- a full middle CF: seven payload bytes, no padding needed
        have h7 : (rest.take 7).length = 7 := by
          rw [List.length_take]; omega
        rw [h7]
        simp only [Nat.sub_self, List.replicate_zero, List.append_nil]
        simp only [List.map_cons]
        rw [indication_run_cf_step]
        rw [if_neg (by
          simp only [List.length_append, h7]; omega)]
        rw [ih (rest.drop 7) (acc ++ rest.take 7) ((sn + 1) % 16) pe pv L
          req resp ffo
          (by simp only [List.length_drop]; omega)
          (by
            rw [← List.length_pos]
            simp only [List.length_drop]
            omega)
          (by simp only [List.length_append, List.length_drop, h7]; omega)]
        rw [List.append_assoc, List.take_append_drop]

/-- C1: for every payload P with 1 ≤ len(P) ≤ 4095 and every padding choice
(`none` = disabled, `some v` = pad with byte v), feeding the ordered frame
list produced by `get_frames_from_message` through the receive logic of
`indication` yields exactly P.  Since the decoded message equals P whatever
`padding` is, the decoded payload is independent of the padding choice. -/
theorem C1_roundtrip (P : List Nat) (padding : Option Nat) (req resp : Nat)
    (h1 : 1 ≤ P.length) (h2 : P.length ≤ 4095) :
    ∃ frames, IsoTp.get_frames_from_message P padding = .ok frames ∧
      IsoTp.indication req resp (frames.map (fun f => (req, f))) true false =
        .message P := by
  by_cases hsf : P.length ≤ 7
  · -- single-frame message
    have hfr : IsoTp.get_frames_from_message P padding =
        .ok [((IsoTp.SF_FRAME_ID <<< 4) ||| P.length) ::
              (P ++ if padding.isSome then
                  List.replicate (IsoTp.MAX_FRAME_LENGTH - (P.length + 1))
                    (padding.getD 0x00)
                else [])] := by
      simp only [IsoTp.get_frames_from_message, IsoTp.MAX_MESSAGE_LENGTH,
        IsoTp.MAX_SF_LENGTH]
      rw [if_neg (by omega), if_pos (by omega)]
    refine ⟨_, hfr, ?_⟩
    have hLlt : P.length < 16 := by omega
    simp only [IsoTp.indication, List.map_cons, List.map_nil]
    rw [IsoTp.indication_run]
    simp [IsoTp.SF_FRAME_ID, IsoTp.decode_sf, IsoTp.SF_PCI_LENGTH,
      sf_head_type _ hLlt, sf_head_low _ hLlt, List.take_left]
  · -- multi-frame message
    have hfr : IsoTp.get_frames_from_message P padding =
        .ok ((((IsoTp.FF_FRAME_ID <<< 4) ||| (P.length >>> 8)) ::
                (P.length &&& 0xFF) :: P.take IsoTp.MAX_FF_LENGTH) ::
              IsoTp.build_cfs (P.drop IsoTp.MAX_FF_LENGTH) 0
                padding.isSome (padding.getD 0x00)) := by
      simp only [IsoTp.get_frames_from_message, IsoTp.MAX_MESSAGE_LENGTH,
        IsoTp.MAX_SF_LENGTH]
      rw [if_neg (by omega), if_neg (by omega)]
    refine ⟨_, hfr, ?_⟩
    have hff : P.length >>> 8 < 16 := shiftRight8_lt_16 (by omega)
    simp only [IsoTp.indication, List.map_cons]
    rw [IsoTp.indication_run]
    simp only [IsoTp.FF_FRAME_ID, IsoTp.SF_FRAME_ID, IsoTp.MAX_FF_LENGTH,
      IsoTp.decode_ff, IsoTp.FF_PCI_LENGTH]
    simp [ff_head_type _ hff, ff_head_low _ hff, ff_dl_recompose,
      IsoTp.build_cfs]
    rw [indication_run_cfs (P.length - 6) (P.drop 6) (P.take 6) 0
      padding.isSome (padding.getD 0x00) P.length req resp false
      (by simp only [List.length_drop]; omega)
      (by
        rw [← List.length_pos]
        simp only [List.length_drop]
        omega)
      (by simp only [List.length_take, List.length_drop]; omega)]
    rw [List.take_append_drop]

/-- C1 (witness): the ten-byte payload of the spec's two-frame scenario,
with padding byte 0x00, decodes back to itself. -/
theorem C1_roundtrip_witness :
    ∃ frames,
      IsoTp.get_frames_from_message [1, 2, 3, 4, 5, 6, 7, 8, 9, 10]
          (some 0x00) = .ok frames ∧
      IsoTp.indication 0x100 0x200 (frames.map (fun f => (0x100, f)))
          true false = .message [1, 2, 3, 4, 5, 6, 7, 8, 9, 10] :=
  C1_roundtrip [1, 2, 3, 4, 5, 6, 7, 8, 9, 10] (some 0x00) 0x100 0x200
    (by decide) (by decide)

end CaringCaribou
